import Mathlib

set_option maxRecDepth 100000

/-!
Shallow embedding of the bookstore ledger (`src/models/models.py` and
`src/views.py`): Customer contact validation, the Books/Category catalog,
and the Transaction factory keyed by an MD5 content hash of the book-id
sequence.  Strings of decimal digits are hashed through a full executable
MD5 over their UTF-8 bytes, exactly as `hashlib.md5(s.encode())` does.
The Float cost column is carried as inert record data; no arithmetic over
it is modelled here, since its IEEE-754 double semantics (rounding after
every addition, decimal rounding of the binary value) do not translate
to exact values.
-/

/-! ### MD5 (the digest used by `hashlib.md5` at models.py line 86) -/

/-- Low 32-bit mask. -/
def mask32 : Nat := 4294967295

/-- Addition modulo 2^32. -/
def add32 (a b : Nat) : Nat := (a + b) % 4294967296

/-- Bitwise complement on 32 bits. -/
def not32 (a : Nat) : Nat := Nat.xor a mask32

/-- Left rotation of a 32-bit word by `n` bits. -/
def rotl32 (x n : Nat) : Nat := ((x <<< n) ||| (x >>> (32 - n))) &&& mask32

/-- The 64 MD5 sine-derived constants. -/
def md5K : List Nat :=
  [0xd76aa478, 0xe8c7b756, 0x242070db, 0xc1bdceee,
   0xf57c0faf, 0x4787c62a, 0xa8304613, 0xfd469501,
   0x698098d8, 0x8b44f7af, 0xffff5bb1, 0x895cd7be,
   0x6b901122, 0xfd987193, 0xa679438e, 0x49b40821,
   0xf61e2562, 0xc040b340, 0x265e5a51, 0xe9b6c7aa,
   0xd62f105d, 0x02441453, 0xd8a1e681, 0xe7d3fbc8,
   0x21e1cde6, 0xc33707d6, 0xf4d50d87, 0x455a14ed,
   0xa9e3e905, 0xfcefa3f8, 0x676f02d9, 0x8d2a4c8a,
   0xfffa3942, 0x8771f681, 0x6d9d6122, 0xfde5380c,
   0xa4beea44, 0x4bdecfa9, 0xf6bb4b60, 0xbebfbc70,
   0x289b7ec6, 0xeaa127fa, 0xd4ef3085, 0x04881d05,
   0xd9d4d039, 0xe6db99e5, 0x1fa27cf8, 0xc4ac5665,
   0xf4292244, 0x432aff97, 0xab9423a7, 0xfc93a039,
   0x655b59c3, 0x8f0ccc92, 0xffeff47d, 0x85845dd1,
   0x6fa87e4f, 0xfe2ce6e0, 0xa3014314, 0x4e0811a1,
   0xf7537e82, 0xbd3af235, 0x2ad7d2bb, 0xeb86d391]

/-- The 64 MD5 per-round left-rotation amounts. -/
def md5S : List Nat :=
  [7, 12, 17, 22, 7, 12, 17, 22, 7, 12, 17, 22, 7, 12, 17, 22,
   5, 9, 14, 20, 5, 9, 14, 20, 5, 9, 14, 20, 5, 9, 14, 20,
   4, 11, 16, 23, 4, 11, 16, 23, 4, 11, 16, 23, 4, 11, 16, 23,
   6, 10, 15, 21, 6, 10, 15, 21, 6, 10, 15, 21, 6, 10, 15, 21]

/-- Little-endian byte rendering of `n` on `count` bytes. -/
def leBytes (n count : Nat) : List Nat :=
  (List.range count).map (fun i => (n >>> (8 * i)) &&& 255)

/-- MD5 padding: a single 0x80 byte, zeros up to 56 mod 64, then the
bit length on 8 little-endian bytes. -/
def md5pad (msg : List Nat) : List Nat :=
  msg ++ [128] ++ List.replicate ((119 - msg.length % 64) % 64) 0
      ++ leBytes (msg.length * 8) 8

/-- Split a byte list into 32-bit little-endian words. -/
def leWords : List Nat → List Nat
  | b0 :: b1 :: b2 :: b3 :: rest =>
      (b0 + b1 * 256 + b2 * 65536 + b3 * 16777216) :: leWords rest
  | _ => []

/-- One MD5 round `i` over the message words `M`, updating `(A, B, C, D)`. -/
def md5round (M : List Nat) (st : Nat × Nat × Nat × Nat) (i : Nat) :
    Nat × Nat × Nat × Nat :=
  let A := st.1
  let B := st.2.1
  let C := st.2.2.1
  let D := st.2.2.2
  let FG : Nat × Nat :=
    if i < 16 then ((B &&& C) ||| (not32 B &&& D), i)
    else if i < 32 then ((D &&& B) ||| (not32 D &&& C), (5 * i + 1) % 16)
    else if i < 48 then (B ^^^ C ^^^ D, (3 * i + 5) % 16)
    else (C ^^^ (B ||| not32 D), (7 * i) % 16)
  let F := (FG.1 + A + md5K.getD i 0 + M.getD FG.2 0) % 4294967296
  (D, add32 B (rotl32 F (md5S.getD i 0)), B, C)

/-- Process one 64-byte chunk: 64 rounds, then add into the running state. -/
def md5chunk (st : Nat × Nat × Nat × Nat) (chunk : List Nat) :
    Nat × Nat × Nat × Nat :=
  let M := leWords chunk
  let r := (List.range 64).foldl (md5round M) st
  (add32 st.1 r.1, add32 st.2.1 r.2.1, add32 st.2.2.1 r.2.2.1,
   add32 st.2.2.2 r.2.2.2)

/-- Process `n` chunks of 64 bytes from the front of `bytes`. -/
def md5chunks (st : Nat × Nat × Nat × Nat) (bytes : List Nat) :
    Nat → Nat × Nat × Nat × Nat
  | 0 => st
  | n + 1 => md5chunks (md5chunk st (bytes.take 64)) (bytes.drop 64) n

/-- MD5 digest of a byte list, as the 16 output bytes. -/
def md5bytes (msg : List Nat) : List Nat :=
  let padded := md5pad msg
  let st := md5chunks (0x67452301, 0xefcdab89, 0x98badcfe, 0x10325476)
      padded (padded.length / 64)
  leBytes st.1 4 ++ leBytes st.2.1 4 ++ leBytes st.2.2.1 4 ++ leBytes st.2.2.2 4

/-- Lower-case hex digit. -/
def hexDigit (n : Nat) : Char :=
  if n < 10 then Char.ofNat (48 + n) else Char.ofNat (87 + n)

/-- Two-digit lower-case hex rendering of a byte. -/
def byteHex (b : Nat) : String :=
  String.mk [hexDigit (b / 16), hexDigit (b % 16)]

/-- UTF-8 encoding of one character, as `str.encode()` produces. -/
def utf8EncodeChar (c : Char) : List Nat :=
  let n := c.toNat
  if n < 128 then [n]
  else if n < 2048 then [192 + n / 64, 128 + n % 64]
  else if n < 65536 then [224 + n / 4096, 128 + (n / 64) % 64, 128 + n % 64]
  else [240 + n / 262144, 128 + (n / 4096) % 64, 128 + (n / 64) % 64,
        128 + n % 64]

/-- UTF-8 bytes of a string. -/
def strBytes (s : String) : List Nat := (s.data.map utf8EncodeChar).flatten

/-- `hashlib.md5(s.encode()).hexdigest()`: lower-case hex MD5 of a string. -/
def md5_hex (s : String) : String :=
  String.join ((md5bytes (strBytes s)).map byteHex)

/-! ### Data model (models.py) -/

/-- Errors surfaced by the model layer: failed `assert` statements in the
validators and constructors, and `first_or_404` lookups. -/
inductive PyError where
  | assertionError
  | notFound
deriving DecidableEq, Repr

/-- A row of the books table (models.py lines 107-124).  The Float cost
column is carried as an inert value: it is only stored and compared as
part of record identity, never computed with, because the column's
IEEE-754 double arithmetic is not modelled. -/
structure Books where
  id : Nat
  ISBN : String
  category_id : Nat
  cost : ℚ
  currency_id : Nat
  description : Option String
deriving DecidableEq, Repr

/-- A row of the category table (models.py lines 95-104). -/
structure Category where
  id : Nat
  name : String
deriving DecidableEq, Repr

/-- A validated customer record (models.py lines 24-49). -/
structure Customer where
  name : String
  email : String
  phone_number : String
deriving DecidableEq, Repr

/-- Python `c in s` membership of a character in a string. -/
def pyContains (s : String) (c : Char) : Bool := s.data.contains c

/-- Python `s.startswith(pre)`. -/
def pyStartsWith (s pre : String) : Bool := pre.data.isPrefixOf s.data

/-- Python `s[1:]`. -/
def pyTail (s : String) : String := String.mk (s.data.drop 1)

/-- The inclusive codepoint ranges of the characters accepted by Python
`str.isdigit`: the Unicode 15.0 characters with Numeric_Type Decimal
(the decimal-digit ranges of every script, general category Nd) or
Numeric_Type Digit (superscript and subscript digits, Ethiopic digits,
circled, double-circled, parenthesized, full-stop, comma and dingbat
digits, the Kharoshthi, Rumi and Brahmi number signs and the New Tai Lue
extra digit).  In particular the superscript two, codepoint 0xB2, is
accepted although it is not one of the decimal digits 0-9. -/
def pyDigitRanges : List (Nat × Nat) :=
  [(0x0030, 0x0039), (0x00B2, 0x00B3), (0x00B9, 0x00B9),
   (0x0660, 0x0669), (0x06F0, 0x06F9), (0x07C0, 0x07C9),
   (0x0966, 0x096F), (0x09E6, 0x09EF), (0x0A66, 0x0A6F),
   (0x0AE6, 0x0AEF), (0x0B66, 0x0B6F), (0x0BE6, 0x0BEF),
   (0x0C66, 0x0C6F), (0x0CE6, 0x0CEF), (0x0D66, 0x0D6F),
   (0x0DE6, 0x0DEF), (0x0E50, 0x0E59), (0x0ED0, 0x0ED9),
   (0x0F20, 0x0F29), (0x1040, 0x1049), (0x1090, 0x1099),
   (0x1369, 0x1371), (0x17E0, 0x17E9), (0x1810, 0x1819),
   (0x1946, 0x194F), (0x19D0, 0x19DA), (0x1A80, 0x1A89),
   (0x1A90, 0x1A99), (0x1B50, 0x1B59), (0x1BB0, 0x1BB9),
   (0x1C40, 0x1C49), (0x1C50, 0x1C59), (0x2070, 0x2070),
   (0x2074, 0x2079), (0x2080, 0x2089), (0x2460, 0x2468),
   (0x2474, 0x247C), (0x2488, 0x2490), (0x24EA, 0x24EA),
   (0x24F5, 0x24FD), (0x24FF, 0x24FF), (0x2776, 0x277E),
   (0x2780, 0x2788), (0x278A, 0x2792), (0xA620, 0xA629),
   (0xA8D0, 0xA8D9), (0xA900, 0xA909), (0xA9D0, 0xA9D9),
   (0xA9F0, 0xA9F9), (0xAA50, 0xAA59), (0xABF0, 0xABF9),
   (0xFF10, 0xFF19), (0x104A0, 0x104A9), (0x10A40, 0x10A43),
   (0x10D30, 0x10D39), (0x10E60, 0x10E68), (0x11052, 0x1105A),
   (0x11066, 0x1106F), (0x110F0, 0x110F9),
   (0x11136, 0x1113F), (0x111D0, 0x111D9), (0x112F0, 0x112F9),
   (0x11450, 0x11459), (0x114D0, 0x114D9), (0x11650, 0x11659),
   (0x116C0, 0x116C9), (0x11730, 0x11739), (0x118E0, 0x118E9),
   (0x11950, 0x11959), (0x11C50, 0x11C59), (0x11D50, 0x11D59),
   (0x11DA0, 0x11DA9), (0x11F50, 0x11F59), (0x16A60, 0x16A69),
   (0x16AC0, 0x16AC9), (0x16B50, 0x16B59), (0x1D7CE, 0x1D7FF),
   (0x1E140, 0x1E149), (0x1E2F0, 0x1E2F9), (0x1E4F0, 0x1E4F9),
   (0x1E950, 0x1E959), (0x1F100, 0x1F10A), (0x1FBF0, 0x1FBF9)]

/-- Python's per-character digit test: `c.isdigit()` holds iff the
codepoint lies in one of the Numeric_Type Decimal or Digit ranges. -/
def pyCharIsDigit (c : Char) : Bool :=
  pyDigitRanges.any (fun r => r.1 ≤ c.toNat && c.toNat ≤ r.2)

/-- Python `s.isdigit()`: true iff the string is nonempty and every
character passes the per-character digit test (`.isdigit` of the empty
string is False). -/
def pyIsDigit (s : String) : Bool := !s.data.isEmpty && s.data.all pyCharIsDigit

/-- Customer.__init__ together with the `validates` hooks on email
(models.py lines 39-42: `assert address contains an at sign`) and on
phone_number (lines 44-49): construction either returns the record or
raises before any object exists. -/
def Customer.init (name email phone_number : String) :
    Except PyError Customer :=
  if !pyContains email '@' then .error .assertionError
  else if !(pyStartsWith phone_number ("8") || pyStartsWith phone_number ("+7"))
    then .error .assertionError
  else if pyStartsWith phone_number ("+") && !pyIsDigit (pyTail phone_number)
    then .error .assertionError
  else .ok ⟨name, email, phone_number⟩

/-- A value passed in a `books` list: either a genuine Books entity or any
other object exposing a numeric id attribute (so that `str(b.id)` at
models.py line 86 is still defined on it). -/
inductive BookArg where
  | book (b : Books)
  | nonBook (id : Nat)
deriving DecidableEq, Repr

/-- The id attribute read by `str(b.id)`. -/
def BookArg.id : BookArg → Nat
  | .book b => b.id
  | .nonBook i => i

/-- Whether `isinstance(book, Books)` holds. -/
def BookArg.isBook : BookArg → Bool
  | .book _ => true
  | .nonBook _ => false

/-- A row of the transaction table (models.py lines 52-70); `date` is the
construction-time clock reading, an abstract timestamp. -/
structure Transaction where
  transaction_hash : String
  customer_id : Nat
  date : Nat
  currency_id : Nat
  books : List Books
deriving DecidableEq, Repr

/-- The for-loop of Transaction.__init__ (models.py lines 68-70):
`assert isinstance(book, Books)` then append; the first non-Books element
aborts construction with an AssertionError. -/
def collectBooks (acc : List Books) : List BookArg → Except PyError (List Books)
  | [] => .ok acc
  | .book b :: rest => collectBooks (acc ++ [b]) rest
  | .nonBook _ :: _ => .error .assertionError

/-- Transaction.__init__ (models.py lines 63-70); `date` stands for the
value of datetime.now() at the call. -/
def Transaction.init (transaction_hash : String)
    (customer_id currency_id : Nat) (books : List BookArg) (date : Nat) :
    Except PyError Transaction :=
  match collectBooks [] books with
  | .error e => .error e
  | .ok bs => .ok ⟨transaction_hash, customer_id, date, currency_id, bs⟩

/-- The persistent store: the transaction, books and category tables, and
the autoincrement counter for books ids. -/
structure DBState where
  transactions : List Transaction
  books : List Books
  categories : List Category
  next_book_id : Nat
deriving DecidableEq, Repr

/-- models.py line 86: the MD5 hex digest of the concatenation of
`str(b.id)` over the books in caller order. -/
def transactionHash (books : List BookArg) : String :=
  md5_hex (String.join (books.map fun b => Nat.repr b.id))

/-- Transaction.create_transaction (models.py lines 84-92):
`cls.query.get(transaction_hash)` is the primary-key lookup on the
transaction table; on a miss the constructor runs and the new row is
added and committed. -/
def Transaction.create_transaction (s : DBState)
    (customer_id currency_id : Nat) (books : List BookArg) (now : Nat) :
    Except PyError (DBState × Transaction) :=
  match s.transactions.find?
      (fun t => t.transaction_hash == transactionHash books) with
  | some tr => .ok (s, tr)
  | none =>
      match Transaction.init (transactionHash books) customer_id currency_id
          books now with
      | .error e => .error e
      | .ok tr => .ok ({ s with transactions := s.transactions ++ [tr] }, tr)

/-- Books.add_book (models.py lines 130-135): resolve the category by name
(`first_or_404` raises NotFound when no row matches), then construct and
persist a Books row whose id the autoincrement column assigns. -/
def Books.add_book (s : DBState) (ISBN category : String) (cost : ℚ)
    (currency_id : Nat) : Except PyError DBState :=
  match s.categories.find? (fun c => c.name == category) with
  | none => .error .notFound
  | some cat =>
      let book : Books := ⟨s.next_book_id, ISBN, cat.id, cost, currency_id, none⟩
      .ok { s with books := s.books ++ [book],
                   next_book_id := s.next_book_id + 1 }

/-- Decidable equality of Except values, for evaluating the operations on
concrete inputs. -/
instance exceptDecidableEq {ε α : Type} [DecidableEq ε] [DecidableEq α] :
    DecidableEq (Except ε α) := fun a b =>
  match a, b with
  | .error e, .error f =>
      if h : e = f then .isTrue (congrArg Except.error h)
      else .isFalse (fun hc => h (Except.error.inj hc))
  | .ok x, .ok y =>
      if h : x = y then .isTrue (congrArg Except.ok h)
      else .isFalse (fun hc => h (Except.ok.inj hc))
  | .error _, .ok _ => .isFalse (fun hc => Except.noConfusion hc)
  | .ok _, .error _ => .isFalse (fun hc => Except.noConfusion hc)

/-! ### Spec-side definitions

These follow the wording of spec.md, to be compared with the definitions
translated from the code above. -/

/-- Spec wording (section 4.3): the books' numeric ids rendered as decimal
strings and concatenated left to right in the order supplied by the
caller, with no re-sorting. -/
def spec_id_concat (ids : List Nat) : String :=
  ids.foldl (fun acc i => acc ++ Nat.repr i) (String.mk [])

/-- Spec wording (section 4.1): the email check fails exactly when the
string does not contain the at sign. -/
def spec_email_check_fails (email : String) : Prop := '@' ∉ email.data

/-- A decimal digit in the sense of the claim: one of the characters 0-9. -/
def spec_decimal_digit (c : Char) : Prop := '0' ≤ c ∧ c ≤ '9'

/-- The phone check failure as the code actually behaves: the string
starts with neither 8 nor +7, or starts with + and some remaining
character fails Python's per-character isdigit test (a strictly larger
class of digits than the decimal digits 0-9). -/
def spec_phone_fails_pydigit (phone : String) : Prop :=
  (¬ (['8'] <+: phone.data) ∧ ¬ (['+', '7'] <+: phone.data)) ∨
  ((['+'] <+: phone.data) ∧ ∃ c ∈ phone.data.drop 1, ¬ pyCharIsDigit c = true)

/-! ### Sample data for concrete evaluations -/

/-- A sample book with id 1. -/
def b_one : Books := ⟨1, ("isbn-1"), 1, 10, 1, none⟩

/-- A sample book with id 2. -/
def b_two : Books := ⟨2, ("isbn-2"), 1, 20, 1, none⟩

/-- A sample book with id 11, for colliding concatenations. -/
def b_eleven : Books := ⟨11, ("isbn-11"), 1, 5, 1, none⟩

/-- A sample book with id 23. -/
def b_23 : Books := ⟨23, ("isbn-23"), 1, 7, 1, none⟩

/-- A sample book with id 12. -/
def b_12 : Books := ⟨12, ("isbn-12"), 1, 8, 1, none⟩

/-- A sample book with id 3. -/
def b_3 : Books := ⟨3, ("isbn-3"), 1, 9, 1, none⟩

/-- The empty store. -/
def emptyDB : DBState := ⟨[], [], [], 1⟩

/-- The transaction persisted for the singleton list of b_one by a call at
time 0 for customer 7 and currency 1; its hash is the MD5 of the digit 1. -/
def sampleT : Transaction :=
  ⟨("c4ca4238a0b923820dcc509a6f75849b"), 7, 0, 1, [b_one]⟩

/-- The store after that call. -/
def sampleS1 : DBState := ⟨[sampleT], [], [], 1⟩

/-- The transaction persisted for the list of b_one and b_23, whose id
concatenation is the string 123. -/
def t123 : Transaction :=
  ⟨("202cb962ac59075b964b07152d234b70"), 7, 0, 1, [b_one, b_23]⟩

/-- The store after persisting t123. -/
def s123 : DBState := ⟨[t123], [], [], 1⟩

/-- A store whose category table holds only the category horrors. -/
def catDB : DBState := ⟨[], [], [⟨1, ("horrors")⟩], 1⟩

/-! ### Helper lemmas -/

/-- Membership reading of the Python `in` test. -/
theorem pyContains_iff (s : String) (c : Char) :
    pyContains s c = true ↔ c ∈ s.data := by
  simp [pyContains, List.contains, List.elem_iff]

/-- Prefix reading of Python `startswith`. -/
theorem pyStartsWith_iff (s pre : String) :
    pyStartsWith s pre = true ↔ pre.data <+: s.data := by
  simp [pyStartsWith, List.isPrefixOf_iff_prefix]

/-- The Python `isdigit` test, spelled with membership. -/
theorem pyIsDigit_iff (s : String) :
    pyIsDigit s = true ↔ s.data ≠ [] ∧ ∀ c ∈ s.data, pyCharIsDigit c = true := by
  simp only [pyIsDigit, Bool.and_eq_true, Bool.not_eq_true', List.isEmpty_eq_false,
    List.all_eq_true]

/-- `find?` over an appended list skips a prefix with no match. -/
theorem find?_append_of_none {α : Type} (p : α → Bool) (l₁ l₂ : List α)
    (h : l₁.find? p = none) : (l₁ ++ l₂).find? p = l₂.find? p := by
  induction l₁ with
  | nil => rfl
  | cons a l ih =>
      rw [List.find?_eq_none] at h
      have ha : p a = false := by
        have := h a (by simp)
        simpa using this
      have hl : l.find? p = none := by
        rw [List.find?_eq_none]
        exact fun x hx => h x (by simp [hx])
      simpa [List.find?_cons, ha] using ih hl

/-- A successful run of the constructor loop returns exactly the genuine
book entities, in order. -/
theorem collectBooks_ok (args : List BookArg) (acc bs : List Books)
    (h : collectBooks acc args = .ok bs) :
    ∃ tl, bs = acc ++ tl ∧ args.map BookArg.id = tl.map Books.id := by
  induction args generalizing acc with
  | nil =>
      refine ⟨[], ?_, rfl⟩
      simpa [collectBooks] using (Except.ok.inj h).symm
  | cons a rest ih =>
      cases a with
      | book b =>
          obtain ⟨tl, h1, h2⟩ := ih (acc ++ [b]) h
          exact ⟨b :: tl, by simp [h1], by simp [BookArg.id, h2]⟩
      | nonBook i => exact absurd h (by simp [collectBooks])

/-- The constructor loop fails exactly when some element is not a genuine
Books entity. -/
theorem collectBooks_error_iff (args : List BookArg) (acc : List Books) :
    collectBooks acc args = .error PyError.assertionError ↔
      ∃ a ∈ args, a.isBook = false := by
  induction args generalizing acc with
  | nil => simp [collectBooks]
  | cons a rest ih =>
      cases a with
      | book b => simp [collectBooks, BookArg.isBook, ih (acc ++ [b])]
      | nonBook i => simp [collectBooks, BookArg.isBook]

/-- RFC 1321 test vector: the empty message. -/
theorem md5_empty : md5_hex ("") = "d41d8cd98f00b204e9800998ecf8427e" := by
  decide

/-- RFC 1321 test vector: the three-byte message abc. -/
theorem md5_abc : md5_hex ("abc") = "900150983cd24fb0d6963f7d28e17f72" := by
  decide

/-- Joining the rendered ids equals the spec's left-to-right
concatenation. -/
theorem join_map_eq_spec_concat (ids : List Nat) :
    String.join (ids.map Nat.repr) = spec_id_concat ids := by
  unfold String.join spec_id_concat
  rw [List.foldl_map]

/-- The hash of a book list is determined by its id sequence. -/
theorem transactionHash_eq_of_ids (books1 books2 : List BookArg)
    (h : books2.map BookArg.id = books1.map BookArg.id) :
    transactionHash books2 = transactionHash books1 := by
  unfold transactionHash
  have e2 : (books2.map fun b => Nat.repr b.id) =
      (books2.map BookArg.id).map Nat.repr := by
    rw [List.map_map]; rfl
  have e1 : (books1.map fun b => Nat.repr b.id) =
      (books1.map BookArg.id).map Nat.repr := by
    rw [List.map_map]; rfl
  rw [e1, e2, h]

/-- Fields of a successfully constructed Transaction. -/
theorem Transaction.init_fields (hash : String) (cust curr : Nat)
    (args : List BookArg) (d : Nat) (t : Transaction)
    (h : Transaction.init hash cust curr args d = .ok t) :
    t.transaction_hash = hash ∧ t.customer_id = cust ∧ t.date = d ∧
      t.currency_id = curr ∧ args.map BookArg.id = t.books.map Books.id := by
  unfold Transaction.init at h
  cases hcb : collectBooks [] args with
  | error e => rw [hcb] at h; cases h
  | ok bs =>
      rw [hcb] at h
      obtain ⟨tl, h1, h2⟩ := collectBooks_ok args [] bs hcb
      cases h
      refine ⟨rfl, rfl, rfl, rfl, ?_⟩
      simpa [h1] using h2

/-- C2: for every successful call of create_transaction, the returned
transaction's hash is the MD5 digest of the concatenation of the books'
numeric ids rendered as decimal strings, in the order supplied by the
caller, with no re-sorting. -/
theorem create_transaction_hash_is_md5_of_id_concat
    (s : DBState) (cust curr : Nat) (books : List BookArg) (now : Nat)
    (s' : DBState) (t : Transaction)
    (h : Transaction.create_transaction s cust curr books now = .ok (s', t)) :
    t.transaction_hash = md5_hex (spec_id_concat (books.map BookArg.id)) := by
  have hjoin : transactionHash books =
      md5_hex (spec_id_concat (books.map BookArg.id)) := by
    unfold transactionHash
    rw [← join_map_eq_spec_concat, List.map_map]
    rfl
  unfold Transaction.create_transaction at h
  cases hf : s.transactions.find?
      (fun u => u.transaction_hash == transactionHash books) with
  | some tr =>
      rw [hf] at h
      cases h
      rw [← hjoin]
      have hb := List.find?_some hf
      exact beq_iff_eq.mp hb
  | none =>
      rw [hf] at h
      cases hinit : Transaction.init (transactionHash books) cust curr books
          now with
      | error e => rw [hinit] at h; cases h
      | ok tr =>
          rw [hinit] at h
          cases h
          rw [← hjoin]
          exact (Transaction.init_fields _ _ _ _ _ _ hinit).1

/-- C2 witness: a concrete call on the empty store. -/
theorem create_transaction_hash_is_md5_of_id_concat_witness :
    Transaction.create_transaction emptyDB 7 1 [BookArg.book b_one] 0 =
      .ok (sampleS1, sampleT) ∧
    sampleT.transaction_hash =
      md5_hex (spec_id_concat ([BookArg.book b_one].map BookArg.id)) :=
  ⟨by decide,
   create_transaction_hash_is_md5_of_id_concat emptyDB 7 1 [BookArg.book b_one]
     0 sampleS1 sampleT (by decide)⟩

/-- C1: create_transaction is idempotent: after a successful call, a
second call with the same customer, currency and the same book-id
sequence (same ids, same order, at any later time) returns the very same
persisted record and leaves the store unchanged. -/
theorem create_transaction_idempotent
    (s0 : DBState) (cust curr : Nat) (books1 books2 : List BookArg)
    (now1 now2 : Nat) (s1 : DBState) (t : Transaction)
    (hids : books2.map BookArg.id = books1.map BookArg.id)
    (h1 : Transaction.create_transaction s0 cust curr books1 now1 =
      .ok (s1, t)) :
    Transaction.create_transaction s1 cust curr books2 now2 = .ok (s1, t) := by
  have hh := transactionHash_eq_of_ids books1 books2 hids
  unfold Transaction.create_transaction at h1 ⊢
  rw [hh]
  cases hf : s0.transactions.find?
      (fun u => u.transaction_hash == transactionHash books1) with
  | some tr =>
      rw [hf] at h1
      have hpair := Except.ok.inj h1
      have hs1 : s1 = s0 := congrArg Prod.fst hpair.symm
      have ht : t = tr := congrArg Prod.snd hpair.symm
      subst hs1
      subst ht
      rw [hf]
  | none =>
      rw [hf] at h1
      cases hinit : Transaction.init (transactionHash books1) cust curr books1
          now1 with
      | error e => rw [hinit] at h1; cases h1
      | ok tr =>
          rw [hinit] at h1
          have hpair := Except.ok.inj h1
          have hs1 : s1 = { s0 with transactions := s0.transactions ++ [tr] } :=
            congrArg Prod.fst hpair.symm
          have ht : tr = t := congrArg Prod.snd hpair
          have hthash : tr.transaction_hash = transactionHash books1 :=
            (Transaction.init_fields _ _ _ _ _ _ hinit).1
          have hfind : (s0.transactions ++ [tr]).find?
              (fun u => u.transaction_hash == transactionHash books1) =
              some tr := by
            rw [find?_append_of_none _ _ _ hf, List.find?_cons,
              show (tr.transaction_hash == transactionHash books1) = true from
                beq_iff_eq.mpr hthash]
          rw [hs1,
            show ({ s0 with transactions := s0.transactions ++ [tr] } :
              DBState).transactions = s0.transactions ++ [tr] from rfl,
            hfind, ht]

/-- C1 witness: two identical concrete calls on the empty store. -/
theorem create_transaction_idempotent_witness :
    Transaction.create_transaction emptyDB 7 1 [BookArg.book b_one] 0 =
      .ok (sampleS1, sampleT) ∧
    Transaction.create_transaction sampleS1 7 1 [BookArg.book b_one] 5 =
      .ok (sampleS1, sampleT) :=
  ⟨by decide,
   create_transaction_idempotent emptyDB 7 1 [BookArg.book b_one]
     [BookArg.book b_one] 0 5 sampleS1 sampleT rfl (by decide)⟩

/-- C4: when the derived hash matches an existing Transaction, that
record is returned unchanged, the store is unchanged, and the supplied
customer, currency and books are not validated against the existing
record's own fields (the statement holds for every customer id, currency
id and book list with that hash, genuine Books entities or not). -/
theorem create_transaction_existing_frame
    (s : DBState) (cust curr : Nat) (books : List BookArg) (now : Nat)
    (t : Transaction)
    (h : s.transactions.find?
        (fun u => u.transaction_hash == transactionHash books) = some t) :
    Transaction.create_transaction s cust curr books now = .ok (s, t) ∧
      t.transaction_hash = transactionHash books := by
  constructor
  · unfold Transaction.create_transaction
    rw [h]
  · have hb := List.find?_some h
    exact beq_iff_eq.mp hb

/-- C4 witness: a hit through a non-Books argument carrying id 1, with a
customer and currency different from the stored record's. -/
theorem create_transaction_existing_frame_witness :
    sampleS1.transactions.find?
        (fun u => u.transaction_hash == transactionHash [BookArg.nonBook 1]) =
      some sampleT ∧
    (Transaction.create_transaction sampleS1 9 4 [BookArg.nonBook 1] 5 =
        .ok (sampleS1, sampleT) ∧
      sampleT.transaction_hash = transactionHash [BookArg.nonBook 1]) :=
  ⟨by decide,
   create_transaction_existing_frame sampleS1 9 4 [BookArg.nonBook 1] 5 sampleT
     (by decide)⟩

/-- C7: the Transaction constructor fails with the assertion error exactly
when some element of the books list is not a genuine Books entity, and
then no Transaction value is produced. -/
theorem transaction_init_rejects_non_books
    (hash : String) (cust curr : Nat) (args : List BookArg) (d : Nat) :
    Transaction.init hash cust curr args d = .error PyError.assertionError ↔
      ∃ a ∈ args, a.isBook = false := by
  unfold Transaction.init
  rw [← collectBooks_error_iff args []]
  cases hcb : collectBooks [] args with
  | error e => simp
  | ok bs => simp

/-- C8 counterexample: create_transaction called with an empty book list
does not fail; it persists a Transaction whose book set is empty. -/
theorem create_transaction_empty_list_succeeds :
    Transaction.create_transaction emptyDB 3 2 [] 4 =
      .ok (⟨[⟨("d41d8cd98f00b204e9800998ecf8427e"), 3, 4, 2, []⟩], [], [], 1⟩,
           ⟨("d41d8cd98f00b204e9800998ecf8427e"), 3, 4, 2, []⟩) := by
  decide

/-- C8 amended: an empty book list is accepted, not rejected: when the
store has no record under the hash of the empty concatenation, the call
persists and returns a Transaction whose book set is empty and whose hash
is the MD5 digest of the empty string. -/
theorem create_transaction_empty_list_ok
    (s : DBState) (cust curr now : Nat)
    (h : s.transactions.find?
        (fun u => u.transaction_hash == transactionHash []) = none) :
    Transaction.create_transaction s cust curr [] now =
      .ok ({ s with transactions := s.transactions ++
               [⟨md5_hex (String.mk []), cust, now, curr, []⟩] },
           ⟨md5_hex (String.mk []), cust, now, curr, []⟩) := by
  unfold Transaction.create_transaction
  rw [h]
  rfl

/-- C8 amended witness: the concrete empty-list call on the empty store. -/
theorem create_transaction_empty_list_ok_witness :
    emptyDB.transactions.find?
        (fun u => u.transaction_hash == transactionHash []) = none ∧
    Transaction.create_transaction emptyDB 3 2 [] 4 =
      .ok ({ emptyDB with transactions := emptyDB.transactions ++
               [⟨md5_hex (String.mk []), 3, 4, 2, []⟩] },
           ⟨md5_hex (String.mk []), 3, 4, 2, []⟩) :=
  ⟨rfl, create_transaction_empty_list_ok emptyDB 3 2 4 rfl⟩

/-- C9: add_book with a category name matching no Category record fails
with the not-found error, and no Books record is persisted. -/
theorem add_book_unknown_category_fails
    (s : DBState) (isbn category : String) (cost : ℚ) (curr : Nat)
    (h : ∀ c ∈ s.categories, c.name ≠ category) :
    Books.add_book s isbn category cost curr = .error PyError.notFound := by
  unfold Books.add_book
  have hfind : s.categories.find? (fun c => c.name == category) = none := by
    rw [List.find?_eq_none]
    exact fun x hx hb => h x hx (beq_iff_eq.mp hb)
  rw [hfind]

/-- C9 witness: adding a book under the absent category comix. -/
theorem add_book_unknown_category_fails_witness :
    (∀ c ∈ catDB.categories, c.name ≠ ("comix")) ∧
    Books.add_book catDB ("isbn-9") ("comix") 5 1 =
      .error PyError.notFound :=
  ⟨by decide, add_book_unknown_category_fails catDB ("isbn-9") ("comix") 5 1
    (by decide)⟩

/-- C10: the hash derivation is not injective on book-id sequences: the
id lists 1,23 and 12,3 have different multisets, both concatenate to the
string 123, their hashes are equal, and create_transaction on the second
list returns the very Transaction persisted for the first. -/
theorem hash_collision_reuses_transaction :
    Multiset.ofList ([1, 23] : List Nat) ≠ Multiset.ofList [12, 3] ∧
    transactionHash [BookArg.book b_one, BookArg.book b_23] =
      transactionHash [BookArg.book b_12, BookArg.book b_3] ∧
    Transaction.create_transaction emptyDB 7 1
        [BookArg.book b_one, BookArg.book b_23] 0 = .ok (s123, t123) ∧
    Transaction.create_transaction s123 9 2
        [BookArg.book b_12, BookArg.book b_3] 5 = .ok (s123, t123) :=
  ⟨by decide, by decide, by decide, by decide⟩

/-- C5 counterexample: the two distinct books with ids 1 and 11 produce
the same hash in either order, since both concatenations are the string
111. -/
theorem order_swap_equal_hash_counterexample :
    b_one ≠ b_eleven ∧
    transactionHash [BookArg.book b_one, BookArg.book b_eleven] =
      transactionHash [BookArg.book b_eleven, BookArg.book b_one] :=
  ⟨by decide, by decide⟩

/-- C5 amended: order sensitivity holds when the two concatenations
differ as strings: for the distinct books with ids 1 and 2 the two
orders produce different hashes. -/
theorem order_swap_different_hash_example :
    b_one ≠ b_two ∧
    transactionHash [BookArg.book b_one, BookArg.book b_two] ≠
      transactionHash [BookArg.book b_two, BookArg.book b_one] :=
  ⟨by decide, by decide⟩

/-- A Bool that is not true is false. -/
theorem bool_eq_false {b : Bool} (h : ¬ b = true) : b = false := by
  cases b
  · rfl
  · exact absurd rfl h

/-- No list starts with both the 8 character and the plus character. -/
theorem heads_distinct_char {l : List Char} (h8 : ['8'] <+: l)
    (hp : ['+'] <+: l) : False := by
  rcases h8 with ⟨t1, e1⟩
  rcases hp with ⟨t2, e2⟩
  rw [← e1] at e2
  simp at e2

/-- A list starting with plus-seven has a nonempty tail. -/
theorem drop_one_ne_of_plus7 {l : List Char} (h : ['+', '7'] <+: l) :
    l.drop 1 ≠ [] := by
  rcases h with ⟨t, e⟩
  rw [← e]
  simp

/-- Failure characterization of the customer validators. -/
theorem customer_fail_iff (name email phone : String) :
    Customer.init name email phone = .error PyError.assertionError ↔
      spec_email_check_fails email ∨ spec_phone_fails_pydigit phone := by
  have b8 : pyStartsWith phone ("8") = true ↔ ['8'] <+: phone.data := by
    rw [pyStartsWith_iff]
  have b7 : pyStartsWith phone ("+7") = true ↔ ['+', '7'] <+: phone.data := by
    rw [pyStartsWith_iff]
  have bp : pyStartsWith phone ("+") = true ↔ ['+'] <+: phone.data := by
    rw [pyStartsWith_iff]
  have bd : pyIsDigit (pyTail phone) = true ↔
      (phone.data.drop 1 ≠ [] ∧
        ∀ c ∈ phone.data.drop 1, pyCharIsDigit c = true) := by
    rw [pyIsDigit_iff]
    exact Iff.rfl
  have bm := pyContains_iff email '@'
  unfold Customer.init
  by_cases hE : pyContains email '@' = true
  · have hmem : '@' ∈ email.data := bm.mp hE
    rw [if_neg (show ¬ (!pyContains email '@') = true by rw [hE]; decide)]
    by_cases hS : (pyStartsWith phone ("8") || pyStartsWith phone ("+7")) = true
    · rw [if_neg (show ¬ (!(pyStartsWith phone ("8") ||
          pyStartsWith phone ("+7"))) = true by rw [hS]; decide)]
      rw [Bool.or_eq_true] at hS
      have hS' : ['8'] <+: phone.data ∨ ['+', '7'] <+: phone.data := by
        rcases hS with h | h
        · exact Or.inl (b8.mp h)
        · exact Or.inr (b7.mp h)
      by_cases hP : (pyStartsWith phone ("+") &&
          !pyIsDigit (pyTail phone)) = true
      · rw [if_pos hP]
        rw [Bool.and_eq_true] at hP
        have hSP : ['+'] <+: phone.data := bp.mp hP.1
        have h7 : ['+', '7'] <+: phone.data := by
          rcases hS' with h8 | h7
          · exact (heads_distinct_char h8 hSP).elim
          · exact h7
        have hne : phone.data.drop 1 ≠ [] := drop_one_ne_of_plus7 h7
        have hdf : pyIsDigit (pyTail phone) = false := by
          cases hb : pyIsDigit (pyTail phone)
          · rfl
          · have h2 := hP.2
            rw [hb] at h2
            exact absurd h2 (by decide)
        have hbad : ∃ c ∈ phone.data.drop 1, ¬ pyCharIsDigit c = true := by
          by_contra hno
          push_neg at hno
          have ht : pyIsDigit (pyTail phone) = true := bd.mpr ⟨hne, hno⟩
          rw [ht] at hdf
          exact absurd hdf (by decide)
        have hfail : spec_phone_fails_pydigit phone := Or.inr ⟨hSP, hbad⟩
        simp [hfail]
      · rw [if_neg hP]
        have hnfail : ¬ (spec_email_check_fails email ∨
            spec_phone_fails_pydigit phone) := by
          rintro (he | hph)
          · exact he hmem
          · rcases hph with ⟨h8n, h7n⟩ | ⟨hSP, c, hc, hcd⟩
            · rcases hS' with h8 | h7
              · exact h8n h8
              · exact h7n h7
            · have hSPb : pyStartsWith phone ("+") = true := bp.mpr hSP
              have hdg : pyIsDigit (pyTail phone) = true := by
                cases hb : pyIsDigit (pyTail phone)
                · exfalso
                  apply hP
                  rw [hSPb, hb]
                  decide
                · rfl
              exact hcd ((bd.mp hdg).2 c hc)
        simp [hnfail]
    · have hSf := bool_eq_false hS
      rw [if_pos (show (!(pyStartsWith phone ("8") ||
          pyStartsWith phone ("+7"))) = true by rw [hSf]; decide)]
      have h8 : ¬ ['8'] <+: phone.data := fun hp => by
        rw [b8.mpr hp] at hSf
        simp at hSf
      have h7 : ¬ ['+', '7'] <+: phone.data := fun hp => by
        rw [b7.mpr hp] at hSf
        simp at hSf
      have hfail : spec_phone_fails_pydigit phone := Or.inl ⟨h8, h7⟩
      simp [hfail]
  · have hEf := bool_eq_false hE
    rw [if_pos (show (!pyContains email '@') = true by rw [hEf]; decide)]
    have hfail : spec_email_check_fails email := fun hm => hE (bm.mpr hm)
    simp [hfail]

/-- The constructor has exactly two outcomes: the assertion error, or the
fully built record. -/
theorem customer_init_total (name email phone : String) :
    Customer.init name email phone = .error PyError.assertionError ∨
    Customer.init name email phone = .ok ⟨name, email, phone⟩ := by
  unfold Customer.init
  split_ifs with h1 h2 h3
  · exact Or.inl rfl
  · exact Or.inl rfl
  · exact Or.inl rfl
  · exact Or.inr rfl

/-- C6 amended: Customer construction validates email and phone
synchronously; it fails with the validation error, creating no object at
all, exactly when a check fails; the email check fails exactly when the
string does not contain the at sign, and the phone check fails exactly
when the string starts with neither 8 nor +7, or starts with + and some
remaining character fails Python's str.isdigit test.  That test accepts
a strict superset of the decimal digits (also the Unicode digit
characters such as the superscript two), so a remaining character that
is not a decimal digit need not make construction fail. -/
theorem customer_validation_iff (name email phone : String) :
    (Customer.init name email phone = .error PyError.assertionError ↔
      spec_email_check_fails email ∨ spec_phone_fails_pydigit phone) ∧
    (Customer.init name email phone = .ok ⟨name, email, phone⟩ ↔
      ¬ (spec_email_check_fails email ∨ spec_phone_fails_pydigit phone)) := by
  have hf := customer_fail_iff name email phone
  refine ⟨hf, ?_, ?_⟩
  · intro hok hfl
    exact absurd (hok.symm.trans (hf.mpr hfl)) (by simp)
  · intro hnf
    cases customer_init_total name email phone with
    | inl he => exact absurd (hf.mp he) hnf
    | inr hok => exact hok

/-- Spec section 8 example: an email without the at sign is rejected. -/
theorem customer_example_no_at :
    Customer.init ("x") ("no-at-sign") ("89001234567") =
      .error PyError.assertionError := by decide

/-- Spec section 8 example: a valid email with a +7 all-digit phone is
accepted. -/
theorem customer_example_ok :
    Customer.init ("x") ("a@b.com") ("+79001234567") =
      .ok ⟨("x"), ("a@b.com"), ("+79001234567")⟩ := by decide

/-- Spec section 8 example: a phone with no leading 8 or +7 is
rejected. -/
theorem customer_example_no_prefix :
    Customer.init ("x") ("a@b.com") ("9001234567") =
      .error PyError.assertionError := by decide

/-- C6 counterexample: the phone +7 followed by the superscript two is
accepted — the constructor returns the full record — although the
superscript two is a remaining character after the plus sign that is not
a decimal digit; Python str.isdigit also accepts Unicode digit
characters such as this one. -/
theorem customer_superscript_phone_accepted :
    Customer.init ("x") ("a@b.com") ("+7²") =
      .ok ⟨("x"), ("a@b.com"), ("+7²")⟩ ∧
    '²' ∈ ("+7²").data.drop 1 ∧
    ¬ spec_decimal_digit '²' :=
  ⟨by decide, by decide, fun h => absurd h.2 (by decide)⟩
